import Mathlib

/-!
Verification of the task-management application's chatbot query pipeline
and its frontend helpers.

The repository ships the frontend (API client, chatbot page, date/status
helpers, TypeScript types), the README documenting the prompt design, and
the SQL schema.  The backend pipeline itself (Task Store Accessor, Context
Formatter, Prompt Builder, Model Gateway, Query Orchestrator) is not among
the shipped files, so those components are modelled from the specification,
as marked on each definition.  Frontend functions are embedded from the
source files directly.
-/

/-- Task status enum, from the SQL schema's status VARCHAR and the
TypeScript TaskStatus type: todo, in_progress, done. -/
inductive Status where
  | todo
  | in_progress
  | done
  deriving DecidableEq

/-- Task snapshot row, from the spec's data model: a derived read-only
projection {id, title, status, deadline, assignee_name} with nullable
deadline and assignee_name. -/
structure TaskSnapshot where
  id : Nat
  title : String
  status : Status
  deadline : Option String
  assignee_name : Option String
  deriving DecidableEq

/-- JavaScript's `x || d` fallback applied to an optional string: an absent
value and the empty string are both falsy and fall through to the default. -/
def jsOr (o : Option String) (d : String) : String :=
  match o with
  | none => d
  | some s => if s = "" then d else s

/-- The statusMap record literal inside getStatusText (frontend utils). -/
def statusMap : List (String × String) :=
  [("todo", "To Do"), ("in_progress", "In Progress"), ("done", "Done")]

/-- Embeds getStatusText from the frontend utils, `statusMap[status] || status`,
restricted to own-property reads of the record literal.  This restriction is
exact on every key of statusMap (see getStatusTextJs_agrees_on_tokens); the
full JavaScript property-read semantics, where the record literal also
inherits the members of Object.prototype, is getStatusTextJs below. -/
def getStatusText (status : String) : String :=
  jsOr (statusMap.lookup status) status

/-- A JavaScript runtime value as a property read on an object literal can
produce it: an own string property, a member inherited from Object.prototype
(a function, or the prototype object itself for the proto accessor — truthy
and not a string), or undefined. -/
inductive JsValue where
  | str (s : String)
  | inherited (key : String)
  | undef
  deriving DecidableEq

/-- The property keys every object literal inherits from Object.prototype. -/
def objectProtoKeys : List String :=
  ["constructor", "hasOwnProperty", "isPrototypeOf", "propertyIsEnumerable",
   "toLocaleString", "toString", "valueOf", "__proto__",
   "__defineGetter__", "__defineSetter__", "__lookupGetter__", "__lookupSetter__"]

/-- A JavaScript property read on an object literal with the given own
string properties: an own property wins, otherwise the prototype chain
yields the inherited Object.prototype member, otherwise undefined. -/
def jsIndex (own : List (String × String)) (key : String) : JsValue :=
  match own.lookup key with
  | some v => JsValue.str v
  | none => if key ∈ objectProtoKeys then JsValue.inherited key else JsValue.undef

/-- JavaScript's `v || d` on a property-read result: undefined and the empty
string are falsy and fall back to the default; an inherited function or
object is truthy and is returned as-is. -/
def jsOrVal (v : JsValue) (d : String) : JsValue :=
  match v with
  | JsValue.undef => JsValue.str d
  | JsValue.str s => if s = "" then JsValue.str d else JsValue.str s
  | JsValue.inherited k => JsValue.inherited k

/-- Embeds getStatusText from the frontend utils with JavaScript's full
property-read semantics: `statusMap[status] || status` where the record
literal inherits the members of Object.prototype. -/
def getStatusTextJs (status : String) : JsValue :=
  jsOrVal (jsIndex statusMap status) status

/-- Embeds formatDate from the frontend utils.  A null (or empty, JS-falsy)
date string yields "No deadline"; otherwise the date is rendered by the
locale formatter, passed here explicitly as `render` since
toLocaleDateString is environment state. -/
def formatDate (render : String → String) (dateString : Option String) : String :=
  match dateString with
  | none => "No deadline"
  | some s => if s = "" then "No deadline" else render s

/-- Embeds isOverdue from the frontend utils: null/empty deadline is never
overdue; otherwise the parsed deadline is compared against today's midnight.
Date parsing and the clock are environment state, passed explicitly. -/
def isOverdue (parse : String → Int) (todayStart : Int) (deadline : Option String) : Bool :=
  match deadline with
  | none => false
  | some d => if d = "" then false else decide (parse d < todayStart)

/-- Embeds isToday from the frontend utils: null/empty deadline is never due
today; otherwise the deadline's date string is compared with today's. -/
def isToday (toDateStr : String → String) (todayStr : String) (deadline : Option String) : Bool :=
  match deadline with
  | none => false
  | some d => if d = "" then false else decide (toDateStr d = todayStr)

/-- A JSON value, used for request and response bodies. -/
inductive Json where
  | null
  | bool (b : Bool)
  | num (n : Int)
  | str (s : String)
  | arr (elems : List Json)
  | obj (fields : List (String × Json))

/-- Field lookup on a JSON object. -/
def Json.field (j : Json) (k : String) : Option Json :=
  match j with
  | Json.obj fields => fields.lookup k
  | _ => none

/-- An HTTP fetch request as the frontend API client assembles it. -/
structure FetchRequest where
  method : String
  url : String
  headers : List (String × String)
  body : Option Json

/-- Embeds createHeaders from the frontend API client: always Content-Type
application/json; with includeAuth, a Bearer Authorization header is added
when a token is stored (localStorage passed explicitly). -/
def createHeaders (includeAuth : Bool) (storedToken : Option String) : List (String × String) :=
  let headers := [("Content-Type", "application/json")]
  if includeAuth then
    match storedToken with
    | some t => headers ++ [("Authorization", "Bearer " ++ t)]
    | none => headers
  else headers

/-- Embeds queryChatbot's fetch call from the frontend API client: a POST to
API_URL/api/chatbot/query with authenticated headers and the JSON body
JSON.stringify of the single-field object containing the message. -/
def queryChatbotRequest (apiUrl : String) (storedToken : Option String) (message : String) :
    FetchRequest :=
  ⟨"POST", apiUrl ++ "/api/chatbot/query", createHeaders true storedToken,
    some (Json.obj [("message", Json.str message)])⟩

/-- An HTTP response as handleResponse inspects it: ok flag, status code,
and the parsed JSON body (none when the body does not parse). -/
structure HttpResponse where
  ok : Bool
  status : Nat
  body : Option Json

/-- Embeds handleResponse from the frontend API client: non-ok responses
throw the body's detail (or a fallback message); 204 yields null; otherwise
the parsed JSON body is returned as-is. -/
def handleResponse (resp : HttpResponse) : Except String Json :=
  if resp.ok = false then
    let errBody := resp.body.getD (Json.obj [("detail", Json.str "An error occurred")])
    let detail : Option Json := errBody.field "detail"
    let detailStr : Option String :=
      match detail with
      | some (Json.str s) => some s
      | _ => none
    Except.error (jsOr detailStr ("HTTP error! status: " ++ toString resp.status))
  else if resp.status = 204 then
    Except.ok Json.null
  else
    match resp.body with
    | some j => Except.ok j
    | none => Except.error "invalid json"

/-- The chat response envelope, from the spec's data model (the TypeScript
ChatResponse interface declares response non-optional and error optional;
the spec's envelope makes both nullable with success selecting one). -/
structure ChatResponseEnvelope where
  response : Option String
  success : Bool
  error : Option String
  deriving DecidableEq

/-- Embeds the assistant-message content computation of handleSubmit in the
chatbot page: on success the envelope's response is shown, otherwise
"Error: " followed by the envelope's error (JS-falsy error falls back to
"Failed to get response"). -/
def assistantContent (r : ChatResponseEnvelope) : Option String :=
  if r.success then r.response
  else some ("Error: " ++ jsOr r.error "Failed to get response")

/-- Modelled from the spec: the raw enum token of a status as stored
(the backend Context Formatter's input values; missing from the shipped
files, tokens fixed by the SQL schema and README status table). -/
def statusToken : Status → String
  | Status.todo => "todo"
  | Status.in_progress => "in_progress"
  | Status.done => "done"

/-- Modelled from the spec: the Context Formatter renders a status as its
human label, the same mapping getStatusText implements. -/
def statusDisplay (s : Status) : String := getStatusText (statusToken s)

/-- Modelled from the spec: the Context Formatter renders a null deadline as
"No deadline", otherwise the stored date string. -/
def deadlineDisplay : Option String → String
  | none => "No deadline"
  | some d => d

/-- Modelled from the spec: the Context Formatter renders a null assignee as
"Unassigned", otherwise the assignee's display name. -/
def assigneeDisplay : Option String → String
  | none => "Unassigned"
  | some a => a

/-- Modelled from the spec: the Context Formatter's fixed per-task line
template (the backend formatter is missing from the shipped files; the
template follows the spec with the README's leading dash). -/
def formatLine (t : TaskSnapshot) : String :=
  "- " ++ ("ID: " ++ toString t.id) ++ " | Title: \"" ++ t.title ++ "\" | Status: "
    ++ statusDisplay t.status ++ " | Deadline: " ++ deadlineDisplay t.deadline
    ++ " | Assignee: " ++ assigneeDisplay t.assignee_name

/-- Modelled from the spec: the single line the Context Formatter emits for
an empty task list, stating that no tasks exist. -/
def noTasksLine : String := "There are no tasks in the system."

/-- Joins rendered task lines with newlines. -/
def joinLines : List String → String
  | [] => ""
  | [x] => x
  | x :: xs => x ++ "\n" ++ joinLines xs

/-- Modelled from the spec: the Context Formatter (backend component missing
from the shipped files): one templated line per task joined by newlines, and
the no-tasks sentence for an empty list. -/
def formatContext (tasks : List TaskSnapshot) : String :=
  if tasks.isEmpty then noTasksLine
  else joinLines (tasks.map formatLine)

/-- Modelled from the spec: the Prompt Builder (backend component missing
from the shipped files): fixed preamble, TODAY'S DATE field, task-context
block and USER QUESTION field in fixed order, per the README's template. -/
def buildPrompt (today : String) (context : String) (message : String) : String :=
  "You are a helpful task management assistant. You have access to the following task data:\n\nTODAY'S DATE: "
    ++ today
    ++ "\n\nCURRENT TASKS IN THE SYSTEM:\n"
    ++ context
    ++ "\n\nUSER QUESTION: "
    ++ message
    ++ "\n\nPlease provide a helpful, accurate response based on the task data above."

/-- An ASCII whitespace character, as JavaScript's trim treats the message. -/
def isWsChar (c : Char) : Bool :=
  c = ' ' || c = '\t' || c = '\n' || c = '\r'

/-- A message that is empty or whitespace-only (the spec's InvalidQuery). -/
def isBlank (s : String) : Bool := s.data.all isWsChar

/-- Modelled from the spec: the Model Gateway's typed failures. -/
inductive GatewayFailure where
  | modelTimeout
  | modelUnavailable
  deriving DecidableEq

/-- Modelled from the spec: the user-facing message for a gateway failure. -/
def gatewayMessage : GatewayFailure → String
  | GatewayFailure.modelTimeout => "AI request timed out, unable to answer"
  | GatewayFailure.modelUnavailable => "AI service unavailable, unable to answer"

/-- The observable outcome of one orchestrated query: the envelope returned
to the caller, whether the task store was read, whether the Model Gateway
was invoked, and the prompt sent to it (none when it was never called). -/
structure QueryOutcome where
  envelope : ChatResponseEnvelope
  storeAccessed : Bool
  gatewayCalled : Bool
  promptSent : Option String

/-- Modelled from the spec: the Query Orchestrator (backend component
missing from the shipped files).  A blank message is rejected before any
store or network access; a store failure yields the data-unavailable
envelope without calling the model; otherwise the prompt is built and the
gateway's completion or failure is shaped into the envelope. -/
def orchestrate (store : Except Unit (List TaskSnapshot))
    (gateway : String → Except GatewayFailure String)
    (today : String) (message : String) : QueryOutcome :=
  if isBlank message then
    ⟨⟨none, false, some "message is required"⟩, false, false, none⟩
  else
    match store with
    | Except.error _ => ⟨⟨none, false, some "unable to load task data"⟩, true, false, none⟩
    | Except.ok tasks =>
      let prompt := buildPrompt today (formatContext tasks) message
      match gateway prompt with
      | Except.error e => ⟨⟨none, false, some (gatewayMessage e)⟩, true, true, some prompt⟩
      | Except.ok text => ⟨⟨some text, true, none⟩, true, true, some prompt⟩

/-- The sample task of the spec's end-to-end scenario. -/
def sampleTask : TaskSnapshot := ⟨1, "Fix login bug", Status.todo, none, some "Jane Smith"⟩

/-- Substring occurrence, decided by scanning the suffixes. -/
def containsSubB (s sub : String) : Bool :=
  s.data.tails.any (fun t => sub.data.isPrefixOf t)

/-- The substring `sub` occurs somewhere in `s`. -/
def ContainsSubstr (s sub : String) : Prop := containsSubB s sub = true

/-- Splitting a string's characters at every newline. -/
def breakLines : List Char → List (List Char)
  | [] => [[]]
  | c :: cs =>
    let r := breakLines cs
    if c = '\n' then [] :: r
    else
      match r with
      | [] => [[c]]
      | l :: ls => (c :: l) :: ls

/-- The lines of a string, split at newline characters. -/
def strLines (s : String) : List String := (breakLines s.data).map String.mk

theorem getStatusTextJs_agrees_on_tokens (s : Status) :
    getStatusTextJs (statusToken s) = JsValue.str (getStatusText (statusToken s)) := by
  cases s <;> rfl

theorem str_data_append (s t : String) : (s ++ t).data = s.data ++ t.data := rfl

theorem str_mk_data (s : String) : String.mk s.data = s := rfl

theorem isPrefixOfAppendSelf (l b : List Char) : l.isPrefixOf (l ++ b) = true := by
  induction l with
  | nil => simp [List.isPrefixOf]
  | cons c cs ih => simp [List.isPrefixOf, ih]

theorem mem_tails_append (a x : List Char) : x ∈ (a ++ x).tails := by
  induction a with
  | nil => cases x <;> simp [List.tails]
  | cons c cs ih =>
    simp only [List.cons_append, List.tails]
    exact List.mem_cons_of_mem _ ih

theorem containsSub_of_split (s sub : String) (a b : List Char)
    (h : s.data = a ++ (sub.data ++ b)) : ContainsSubstr s sub := by
  unfold ContainsSubstr containsSubB
  apply List.any_eq_true.mpr
  refine ⟨sub.data ++ b, ?_, isPrefixOfAppendSelf _ _⟩
  rw [h]
  exact mem_tails_append a _

theorem breakLines_append (a : List Char) (h : ∀ c ∈ a, c ≠ '\n') :
    ∀ b hd tl, breakLines b = hd :: tl → breakLines (a ++ b) = (a ++ hd) :: tl := by
  induction a with
  | nil => intro b hd tl hb; simpa using hb
  | cons c cs ih =>
    intro b hd tl hb
    have hc : c ≠ '\n' := h c (by simp)
    have ih' := ih (fun x hx => h x (by simp [hx])) b hd tl hb
    simp only [List.cons_append, breakLines, if_neg hc]
    rw [show cs.append b = cs ++ b from rfl, ih']

theorem newline_data : "\n".data = ['\n'] := rfl

theorem breakLines_joinLines (l : List String) (hne : l ≠ [])
    (h : ∀ x ∈ l, '\n' ∉ x.data) :
    breakLines (joinLines l).data = l.map String.data := by
  induction l with
  | nil => exact absurd rfl hne
  | cons x xs ih =>
    have hx : ∀ c ∈ x.data, c ≠ '\n' := by
      intro c hc heq
      exact h x (by simp) (heq ▸ hc)
    cases xs with
    | nil =>
      have hone : breakLines (x.data ++ []) = (x.data ++ []) :: [] :=
        breakLines_append x.data hx [] [] [] rfl
      simpa [joinLines] using hone
    | cons y ys =>
      have ih' : breakLines (joinLines (y :: ys)).data = (y :: ys).map String.data :=
        ih (by simp) (fun z hz => h z (by simp [hz]))
      have hb : breakLines ('\n' :: (joinLines (y :: ys)).data)
          = [] :: breakLines (joinLines (y :: ys)).data := by
        simp [breakLines]
      have hdata : (joinLines (x :: y :: ys)).data
          = x.data ++ ('\n' :: (joinLines (y :: ys)).data) := by
        simp [joinLines, str_data_append, newline_data]
      rw [hdata, breakLines_append x.data hx _ _ _ hb, ih']
      simp

theorem strLines_joinLines (l : List String) (hne : l ≠ [])
    (h : ∀ x ∈ l, '\n' ∉ x.data) : strLines (joinLines l) = l := by
  unfold strLines
  rw [breakLines_joinLines l hne h, List.map_map]
  exact List.map_id'' (fun s => str_mk_data s) l

theorem joinLines_cons_data_ne_nil (x : String) (xs : List String) (hx : x.data ≠ []) :
    (joinLines (x :: xs)).data ≠ [] := by
  cases xs with
  | nil => simpa [joinLines] using hx
  | cons y ys => simp [joinLines, str_data_append, newline_data]

theorem dash_space_data : "- ".data = ['-', ' '] := rfl

/-- Claim C1: every envelope the chatbot query pipeline produces satisfies
the invariant that success implies a non-null response and a null error,
and failure implies a non-null error; the consumer's handleSubmit reads
only the response field on success and only the error field on failure. -/
theorem chatbot_envelope_invariant :
    (∀ (store : Except Unit (List TaskSnapshot))
        (gateway : String → Except GatewayFailure String) (today message : String),
      ((orchestrate store gateway today message).envelope.success = true →
        (orchestrate store gateway today message).envelope.response.isSome = true ∧
        (orchestrate store gateway today message).envelope.error = none) ∧
      ((orchestrate store gateway today message).envelope.success = false →
        (orchestrate store gateway today message).envelope.error.isSome = true)) ∧
    (∀ r : ChatResponseEnvelope, r.success = true → assistantContent r = r.response) ∧
    (∀ r : ChatResponseEnvelope, r.success = false →
      assistantContent r = some ("Error: " ++ jsOr r.error "Failed to get response")) := by
  refine ⟨?_, ?_, ?_⟩
  · intro store gateway today message
    unfold orchestrate
    split
    · exact ⟨fun h => by simp at h, fun _ => rfl⟩
    · split
      · exact ⟨fun h => by simp at h, fun _ => rfl⟩
      · dsimp only
        split
        · exact ⟨fun h => by simp at h, fun _ => rfl⟩
        · exact ⟨fun _ => ⟨rfl, rfl⟩, fun h => by simp at h⟩
  · intro r h
    simp [assistantContent, h]
  · intro r h
    simp [assistantContent, h]

theorem chatbot_envelope_invariant_witness :
    (orchestrate (Except.error ()) (fun _ => Except.ok "ok") "2024-01-21" "hello").envelope.error.isSome = true := by
  exact (chatbot_envelope_invariant.1 (Except.error ()) (fun _ => Except.ok "ok")
    "2024-01-21" "hello").2 (by decide)

/-- Claim C2: a blank (empty or whitespace-only) message is rejected before
any store or network access: the Model Gateway is never invoked, the task
store is never read, and the envelope is success=false with error
"message is required". -/
theorem blank_message_rejected (message : String) (h : isBlank message = true)
    (store : Except Unit (List TaskSnapshot))
    (gateway : String → Except GatewayFailure String) (today : String) :
    (orchestrate store gateway today message).envelope
        = ⟨none, false, some "message is required"⟩ ∧
    (orchestrate store gateway today message).gatewayCalled = false ∧
    (orchestrate store gateway today message).storeAccessed = false := by
  unfold orchestrate
  rw [if_pos h]
  exact ⟨rfl, rfl, rfl⟩

theorem blank_message_rejected_witness :
    (orchestrate (Except.ok []) (fun _ => Except.ok "hi") "2024-01-21" "   ").envelope
      = ⟨none, false, some "message is required"⟩ :=
  (blank_message_rejected "   " (by decide) (Except.ok []) (fun _ => Except.ok "hi")
    "2024-01-21").1

/-- Claim C3: for the task list holding only the sample task (id 1, title
"Fix login bug", status todo, no deadline, assignee Jane Smith), the prompt
the orchestrator sends to the Model Gateway contains the exact substring
from the spec's end-to-end scenario. -/
theorem prompt_contains_sample_line (gateway : String → Except GatewayFailure String) :
    ∃ p, (orchestrate (Except.ok [sampleTask]) gateway "2024-01-21" "What is not done?").promptSent
        = some p ∧
      ContainsSubstr p
        "ID: 1 | Title: \"Fix login bug\" | Status: To Do | Deadline: No deadline | Assignee: Jane Smith" := by
  refine ⟨buildPrompt "2024-01-21" (formatContext [sampleTask]) "What is not done?", ?_, ?_⟩
  · unfold orchestrate
    rw [if_neg (by decide)]
    dsimp only
    split <;> rfl
  · unfold ContainsSubstr
    set_option maxRecDepth 4000 in decide

/-- Claim C4: the Context Formatter renders each status as its human label
("To Do", "In Progress", "Done"), the same mapping getStatusText implements,
and never as the raw enum token; the per-task line interpolates that label
in its Status field. -/
theorem status_rendered_as_label :
    (∀ s : Status, statusDisplay s = getStatusText (statusToken s)
      ∧ statusDisplay s ≠ statusToken s) ∧
    statusDisplay Status.todo = "To Do" ∧
    statusDisplay Status.in_progress = "In Progress" ∧
    statusDisplay Status.done = "Done" ∧
    (∀ t : TaskSnapshot, formatLine t =
      "- " ++ ("ID: " ++ toString t.id) ++ " | Title: \"" ++ t.title ++ "\" | Status: "
        ++ statusDisplay t.status ++ " | Deadline: " ++ deadlineDisplay t.deadline
        ++ " | Assignee: " ++ assigneeDisplay t.assignee_name) := by
  refine ⟨fun s => ⟨rfl, ?_⟩, by decide, by decide, by decide, fun t => rfl⟩
  cases s <;> decide

/-- Claim C5: queryChatbot issues an authenticated POST to
/api/chatbot/query whose JSON body is exactly the one-field object carrying
the user's message and nothing else, and handleResponse passes an ok 200
response's JSON envelope through unchanged. -/
theorem queryChatbot_request_shape (apiUrl : String) (storedToken : Option String)
    (message : String) :
    (queryChatbotRequest apiUrl storedToken message).method = "POST" ∧
    (queryChatbotRequest apiUrl storedToken message).url = apiUrl ++ "/api/chatbot/query" ∧
    (queryChatbotRequest apiUrl storedToken message).body
        = some (Json.obj [("message", Json.str message)]) ∧
    ("Content-Type", "application/json") ∈ (queryChatbotRequest apiUrl storedToken message).headers ∧
    (∀ t, storedToken = some t →
      ("Authorization", "Bearer " ++ t) ∈ (queryChatbotRequest apiUrl storedToken message).headers) ∧
    (∀ j : Json, handleResponse ⟨true, 200, some j⟩ = Except.ok j) := by
  refine ⟨rfl, rfl, rfl, ?_, ?_, fun j => rfl⟩
  · cases storedToken <;> simp [queryChatbotRequest, createHeaders]
  · intro t ht
    subst ht
    simp [queryChatbotRequest, createHeaders]

theorem queryChatbot_request_shape_witness :
    ("Authorization", "Bearer " ++ "tok")
      ∈ (queryChatbotRequest "http://localhost:8000" (some "tok") "hi").headers :=
  ((queryChatbot_request_shape "http://localhost:8000" (some "tok") "hi").2.2.2.2.1) "tok" rfl

/-- Claim C6 fails as stated: at the empty task list the formatted context
is the single no-tasks sentence, one line where exactly one line per task
demands zero lines. -/
theorem context_empty_list_line_count :
    (strLines (formatContext ([] : List TaskSnapshot))).length
      ≠ ([] : List TaskSnapshot).length := by
  decide

/-- Claim C6 (amended): for every non-empty task list whose rendered lines
contain no newline character, the formatted context has exactly one line
per task, and the i-th line contains the i-th task's id. -/
theorem context_one_line_per_task (ts : List TaskSnapshot) (hne : ts ≠ [])
    (hnl : ∀ t ∈ ts, '\n' ∉ (formatLine t).data) :
    (strLines (formatContext ts)).length = ts.length ∧
    ∀ i (hi : i < ts.length),
      ContainsSubstr ((strLines (formatContext ts)).getD i "")
        ("ID: " ++ toString (ts.get ⟨i, hi⟩).id) := by
  have hempty : ts.isEmpty = false := by
    cases ts with
    | nil => exact absurd rfl hne
    | cons a l => rfl
  have hctx : formatContext ts = joinLines (ts.map formatLine) := by
    unfold formatContext
    simp [hempty]
  have hlines : strLines (formatContext ts) = ts.map formatLine := by
    rw [hctx]
    apply strLines_joinLines
    · simpa using hne
    · intro x hx
      obtain ⟨t, ht, rfl⟩ := List.mem_map.mp hx
      exact hnl t ht
  constructor
  · rw [hlines, List.length_map]
  · intro i hi
    rw [hlines]
    have hgd : (ts.map formatLine).getD i "" = formatLine (ts.get ⟨i, hi⟩) := by
      rw [List.getD_eq_getElem (ts.map formatLine) "" (by simpa using hi)]
      simp [List.get_eq_getElem]
    rw [hgd]
    apply containsSub_of_split _ _ ("- ".data)
      ((" | Title: \"" ++ (ts.get ⟨i, hi⟩).title ++ "\" | Status: "
        ++ statusDisplay (ts.get ⟨i, hi⟩).status ++ " | Deadline: "
        ++ deadlineDisplay (ts.get ⟨i, hi⟩).deadline ++ " | Assignee: "
        ++ assigneeDisplay (ts.get ⟨i, hi⟩).assignee_name).data)
    simp [formatLine, str_data_append, List.append_assoc]

theorem context_one_line_per_task_witness :
    (strLines (formatContext [sampleTask])).length = [sampleTask].length :=
  (context_one_line_per_task [sampleTask] (by decide) (by decide)).1

/-- Claim C7: the empty task list formats to the fixed non-empty sentence
stating that no tasks exist, and no task list ever formats to the empty
string. -/
theorem empty_context_sentence :
    formatContext [] = noTasksLine ∧ noTasksLine ≠ "" ∧
    (∀ ts : List TaskSnapshot, formatContext ts ≠ "") := by
  refine ⟨rfl, by decide, ?_⟩
  intro ts
  cases ts with
  | nil => decide
  | cons t rest =>
    intro heq
    have hdata := congrArg String.data heq
    rw [show ("" : String).data = [] from rfl] at hdata
    have hctx : formatContext (t :: rest) = joinLines (formatLine t :: rest.map formatLine) := by
      simp [formatContext]
    rw [hctx] at hdata
    exact joinLines_cons_data_ne_nil (formatLine t) (rest.map formatLine)
      (by simp [formatLine, str_data_append, dash_space_data]) hdata

/-- Claim C8: in the per-task line a null deadline is rendered as the text
"No deadline" and a null assignee as "Unassigned", in their template slots;
formatDate likewise maps a null date string to "No deadline". -/
theorem null_fields_rendered :
    deadlineDisplay none = "No deadline" ∧ assigneeDisplay none = "Unassigned" ∧
    (∀ render, formatDate render none = "No deadline") ∧
    (∀ t : TaskSnapshot, t.deadline = none →
      ContainsSubstr (formatLine t) " | Deadline: No deadline | Assignee: ") ∧
    (∀ t : TaskSnapshot, t.assignee_name = none →
      ContainsSubstr (formatLine t) " | Assignee: Unassigned") := by
  refine ⟨rfl, rfl, fun render => rfl, ?_, ?_⟩
  · intro t h
    have hx : (" | Deadline: No deadline | Assignee: " : String)
        = " | Deadline: " ++ "No deadline" ++ " | Assignee: " := by decide
    apply containsSub_of_split _ _
      (("- " ++ ("ID: " ++ toString t.id) ++ " | Title: \"" ++ t.title ++ "\" | Status: "
        ++ statusDisplay t.status).data)
      ((assigneeDisplay t.assignee_name).data)
    rw [hx]
    simp [formatLine, h, deadlineDisplay, str_data_append, List.append_assoc]
  · intro t h
    have hx : (" | Assignee: Unassigned" : String) = " | Assignee: " ++ "Unassigned" := by decide
    apply containsSub_of_split _ _
      (("- " ++ ("ID: " ++ toString t.id) ++ " | Title: \"" ++ t.title ++ "\" | Status: "
        ++ statusDisplay t.status ++ " | Deadline: " ++ deadlineDisplay t.deadline).data)
      ([])
    rw [hx]
    simp [formatLine, h, assigneeDisplay, str_data_append, List.append_assoc]

theorem null_fields_rendered_witness :
    ContainsSubstr (formatLine ⟨7, "Write docs", Status.done, none, none⟩)
      " | Assignee: Unassigned" :=
  null_fields_rendered.2.2.2.2 ⟨7, "Write docs", Status.done, none, none⟩ rfl

/-- Claim C9 fails as stated: "toString" lies outside the mapped set, yet
the property read statusMap["toString"] yields the member the record literal
inherits from Object.prototype, which is truthy, so getStatusText returns
that inherited member rather than the input string unchanged. -/
theorem getStatusText_inherited_key :
    getStatusTextJs "toString" = JsValue.inherited "toString" ∧
    getStatusTextJs "toString" ≠ JsValue.str "toString" := by
  exact ⟨by decide, by decide⟩

/-- Claim C9 (amended): getStatusText passes any status string outside the
mapped set todo, in_progress, done through unchanged, provided it is not one
of the property keys inherited from Object.prototype; the own-property model
agrees on such strings. -/
theorem getStatusText_passthrough (s : String)
    (h1 : s ≠ "todo") (h2 : s ≠ "in_progress") (h3 : s ≠ "done")
    (h4 : s ∉ objectProtoKeys) :
    getStatusTextJs s = JsValue.str s ∧ getStatusText s = s := by
  have e1 : (s == "todo") = false := beq_eq_false_iff_ne.mpr h1
  have e2 : (s == "in_progress") = false := beq_eq_false_iff_ne.mpr h2
  have e3 : (s == "done") = false := beq_eq_false_iff_ne.mpr h3
  constructor
  · simp [getStatusTextJs, jsIndex, statusMap, List.lookup, e1, e2, e3, h4, jsOrVal]
  · simp [getStatusText, statusMap, List.lookup, e1, e2, e3, jsOr]

theorem getStatusText_passthrough_witness :
    getStatusTextJs "cancelled" = JsValue.str "cancelled" ∧
    getStatusText "cancelled" = "cancelled" :=
  getStatusText_passthrough "cancelled" (by decide) (by decide) (by decide) (by decide)

/-- Claim C10: a null deadline is neither overdue nor due today, for every
date-parsing environment and clock. -/
theorem null_deadline_never_due (parse : String → Int) (todayStart : Int)
    (toDateStr : String → String) (todayStr : String) :
    isOverdue parse todayStart none = false ∧ isToday toDateStr todayStr none = false :=
  ⟨rfl, rfl⟩
